import Mathlib

/-!
Verification of `validateMedication`
(src/lib/quick-reference-database/validation/runtime.ts) against its
specification.  The function runs a medication record through a Zod
schema (`QuickReferenceMedicationSchema.safeParse`) and, on success,
performs two supplemental business-rule checks.
-/

namespace QuickRef

/-- One segment of a Zod issue path: a field name or a numeric index. -/
inductive PathSeg where
  | str (s : String)
  | num (n : Nat)
deriving DecidableEq, Repr

/-- JavaScript `String(segment)` applied to a path segment
(`e.path.map(String)` in the source). -/
def PathSeg.toStr : PathSeg → String
  | .str s => s
  | .num n => toString n

/-- A Zod validation issue: a path into the record and a message. -/
structure ZodIssue where
  path : List PathSeg
  message : String
deriving DecidableEq, Repr

/-- A dosing profile as read by the business-rule check: optional
`minAge` and `maxAge` numeric fields. -/
structure DosingProfile where
  minAge : Option Int
  maxAge : Option Int
deriving DecidableEq, Repr

/-- The slice of a schema-validated medication record that
`validateMedication` reads: `dosingProfiles` (optional array) and
`complaintCategories` (optional array of category identifiers). -/
structure MedicationData where
  dosingProfiles : Option (List DosingProfile)
  complaintCategories : Option (List String)
deriving DecidableEq, Repr

/-- Modelled from the spec: the Zod schema `QuickReferenceMedicationSchema`
lives in `validation/schemas.ts`, which is not among the visible sources.
Per the collaborator contract in the spec, `safeParse` returns either
`{success: true, data: <normalized record>}` or
`{success: false, error: {issues: [...]}}`; this type captures exactly
that shape. -/
inductive SafeParseResult where
  | success (data : MedicationData)
  | failure (issues : List ZodIssue)
deriving DecidableEq, Repr

/-- The result record returned by `validateMedication`. -/
structure ValidationResult where
  isValid : Bool
  errors : List String
  warnings : List String
deriving DecidableEq, Repr

/-- Formatting of one schema issue:
`` `${e.path.map(String).join('.')}: ${e.message}` ``. -/
def formatIssue (e : ZodIssue) : String :=
  String.intercalate "." (e.path.map PathSeg.toStr) ++ ": " ++ e.message

/-- The error message pushed for the offending dosing profile at
0-based index `i`. -/
def dosingProfileMsg (i : Nat) : String :=
  "Dosing profile #" ++ toString (i + 1) ++
    ": Minimum age must be less than maximum age"

/-- The indexed `for` loop over `validatedData.dosingProfiles`: starting
at index `i`, push `dosingProfileMsg i` whenever both `minAge` and
`maxAge` are present and `minAge >= maxAge`; never stop early. -/
def dosingProfileErrorsFrom : Nat → List DosingProfile → List String
  | _, [] => []
  | i, p :: ps =>
    match p.minAge, p.maxAge with
    | some mn, some mx =>
      if mn ≥ mx then dosingProfileMsg i :: dosingProfileErrorsFrom (i + 1) ps
      else dosingProfileErrorsFrom (i + 1) ps
    | _, _ => dosingProfileErrorsFrom (i + 1) ps

/-- The warning text pushed when `complaintCategories` is absent or empty. -/
def noCategoriesWarning : String := "No complaint categories assigned"

/-- The body of `validateMedication` after `safeParse` has produced
`result`: on failure, map every issue through `formatIssue` into
`errors`; on success, run the dosing-profile loop and the
complaint-category check; finally set `isValid` to
`errors.length === 0`. -/
def validateResult (result : SafeParseResult) : ValidationResult :=
  match result with
  | .failure issues =>
    let errors := issues.map formatIssue
    { isValid := errors.length == 0, errors := errors, warnings := [] }
  | .success validatedData =>
    let errors :=
      match validatedData.dosingProfiles with
      | some profiles => dosingProfileErrorsFrom 0 profiles
      | none => []
    let warnings :=
      match validatedData.complaintCategories with
      | none => [noCategoriesWarning]
      | some cs => if cs.length == 0 then [noCategoriesWarning] else []
    { isValid := errors.length == 0, errors := errors, warnings := warnings }

/-- `validateMedication`: run the external schema over the record, then
the checks of `validateResult`.  The schema is a parameter because it is
an external collaborator (`QuickReferenceMedicationSchema`). -/
def validateMedication {α : Type} (safeParse : α → SafeParseResult)
    (medication : α) : ValidationResult :=
  validateResult (safeParse medication)

/-- Spec-side description of the dosing-profile errors (for the
refinement claim C1): one entry for each 1-based position `i + 1` at
which both ages are present and `minAge >= maxAge`, in ascending
position order. -/
def specDosingErrors (profiles : List DosingProfile) : List String :=
  profiles.enum.filterMap fun ip =>
    match (ip.2).minAge, (ip.2).maxAge with
    | some mn, some mx =>
      if mn ≥ mx then some (dosingProfileMsg ip.1) else none
    | _, _ => none

/-- The loop agrees with the spec-side enumeration, for every start index. -/
theorem dosingProfileErrorsFrom_eq_enumFrom (i : Nat)
    (ps : List DosingProfile) :
    dosingProfileErrorsFrom i ps =
      (ps.enumFrom i).filterMap (fun ip =>
        match (ip.2).minAge, (ip.2).maxAge with
        | some mn, some mx =>
          if mn ≥ mx then some (dosingProfileMsg ip.1) else none
        | _, _ => none) := by
  induction ps generalizing i with
  | nil => rfl
  | cons p ps ih =>
    cases hmn : p.minAge with
    | none =>
      simp [dosingProfileErrorsFrom, List.enumFrom, List.filterMap, hmn, ih]
    | some mn =>
      cases hmx : p.maxAge with
      | none =>
        simp [dosingProfileErrorsFrom, List.enumFrom, List.filterMap,
          hmn, hmx, ih]
      | some mx =>
        by_cases hge : mn ≥ mx
        · simp [dosingProfileErrorsFrom, List.enumFrom, List.filterMap,
            hmn, hmx, hge, ih]
        · simp [dosingProfileErrorsFrom, List.enumFrom, List.filterMap,
            hmn, hmx, hge, ih]

theorem dosingProfileErrorsFrom_eq_spec (ps : List DosingProfile) :
    dosingProfileErrorsFrom 0 ps = specDosingErrors ps := by
  rw [dosingProfileErrorsFrom_eq_enumFrom]
  rfl

/-- In both branches, `isValid` is the emptiness test of the `errors`
list that is returned. -/
theorem isValid_eq (result : SafeParseResult) :
    (validateResult result).isValid =
      ((validateResult result).errors.length == 0) := by
  cases result with
  | failure issues => rfl
  | success d => rfl

/-- C1: for every record that passes schema validation, the errors list
is exactly one entry per 1-based position at which the dosing profile
has both ages present with `minAge >= maxAge`, in ascending position
order, with no other errors and no short-circuiting. -/
theorem validateMedication_success_errors {α : Type}
    (safeParse : α → SafeParseResult) (medication : α)
    (data : MedicationData)
    (h : safeParse medication = .success data) :
    (validateMedication safeParse medication).errors =
      specDosingErrors (data.dosingProfiles.getD []) := by
  cases hdp : data.dosingProfiles with
  | none =>
    simp [validateMedication, validateResult, h, hdp, specDosingErrors]
  | some ps =>
    simp [validateMedication, validateResult, h, hdp,
      dosingProfileErrorsFrom_eq_spec]

theorem validateMedication_success_errors_witness :
    (fun _ : Unit => SafeParseResult.success
        ⟨some [⟨some 10, some 5⟩, ⟨some 1, some 2⟩], some ["fever"]⟩) () =
      SafeParseResult.success
        ⟨some [⟨some 10, some 5⟩, ⟨some 1, some 2⟩], some ["fever"]⟩ ∧
    (validateMedication
        (fun _ : Unit => SafeParseResult.success
          ⟨some [⟨some 10, some 5⟩, ⟨some 1, some 2⟩], some ["fever"]⟩)
        ()).errors =
      specDosingErrors
        ((MedicationData.dosingProfiles
          ⟨some [⟨some 10, some 5⟩, ⟨some 1, some 2⟩],
            some ["fever"]⟩).getD []) :=
  ⟨rfl, validateMedication_success_errors _ () _ rfl⟩

/-- C2: for every record that fails schema validation (Zod reports at
least one issue), the result has `isValid = false` and its errors list
is exactly the issues formatted as `<dot-joined path>: <message>`, one
per issue — so no business-rule entry is ever added. -/
theorem validateMedication_failure_errors {α : Type}
    (safeParse : α → SafeParseResult) (medication : α)
    (issues : List ZodIssue)
    (h : safeParse medication = .failure issues) (hne : issues ≠ []) :
    (validateMedication safeParse medication).isValid = false ∧
    (validateMedication safeParse medication).errors =
      issues.map formatIssue ∧
    (validateMedication safeParse medication).errors.length =
      issues.length := by
  cases issues with
  | nil => exact absurd rfl hne
  | cons e es => simp [validateMedication, validateResult, h]

theorem validateMedication_failure_errors_witness :
    ((fun _ : Unit => SafeParseResult.failure
        [⟨[PathSeg.str "name"], "Required"⟩]) () =
      SafeParseResult.failure [⟨[PathSeg.str "name"], "Required"⟩] ∧
      ([⟨[PathSeg.str "name"], "Required"⟩] : List ZodIssue) ≠ []) ∧
    ((validateMedication
        (fun _ : Unit => SafeParseResult.failure
          [⟨[PathSeg.str "name"], "Required"⟩]) ()).isValid = false ∧
     (validateMedication
        (fun _ : Unit => SafeParseResult.failure
          [⟨[PathSeg.str "name"], "Required"⟩]) ()).errors =
       ([⟨[PathSeg.str "name"], "Required"⟩] : List ZodIssue).map
         formatIssue ∧
     (validateMedication
        (fun _ : Unit => SafeParseResult.failure
          [⟨[PathSeg.str "name"], "Required"⟩]) ()).errors.length =
       ([⟨[PathSeg.str "name"], "Required"⟩] : List ZodIssue).length) :=
  ⟨⟨rfl, by decide⟩,
    validateMedication_failure_errors _ () _ rfl (by decide)⟩

/-- C3: `isValid` is true exactly when the errors list is empty;
warnings never influence it. -/
theorem validateMedication_isValid_iff {α : Type}
    (safeParse : α → SafeParseResult) (medication : α) :
    (validateMedication safeParse medication).isValid = true ↔
      (validateMedication safeParse medication).errors = [] := by
  have h := isValid_eq (safeParse medication)
  rw [validateMedication, h]
  simp [List.length_eq_zero]

/-- C4: `validateMedication` is total: every input yields a
`ValidationResult` whose `isValid` flag is derived from its errors
list; nothing escapes as an exception. -/
theorem validateMedication_total {α : Type}
    (safeParse : α → SafeParseResult) (medication : α) :
    ∃ errors warnings : List String,
      validateMedication safeParse medication =
        { isValid := errors.length == 0, errors := errors,
          warnings := warnings } := by
  refine ⟨(validateMedication safeParse medication).errors,
    (validateMedication safeParse medication).warnings, ?_⟩
  have h := isValid_eq (safeParse medication)
  cases hv : validateMedication safeParse medication with
  | mk isValid errors warnings =>
    rw [validateMedication] at hv
    rw [hv] at h
    simp_all

/-- C5: for every record passing schema validation whose
`complaintCategories` is absent or empty, the warnings list is exactly
the single "No complaint categories assigned" entry, and this warning
never changes `isValid`: it stays true whenever errors is empty. -/
theorem validateMedication_no_categories_warning {α : Type}
    (safeParse : α → SafeParseResult) (medication : α)
    (data : MedicationData)
    (h : safeParse medication = .success data)
    (hcc : data.complaintCategories = none ∨
      data.complaintCategories = some []) :
    (validateMedication safeParse medication).warnings =
      [noCategoriesWarning] ∧
    ((validateMedication safeParse medication).errors = [] →
      (validateMedication safeParse medication).isValid = true) := by
  constructor
  · cases hdp : data.dosingProfiles <;> rcases hcc with hcc | hcc <;>
      simp [validateMedication, validateResult, h, hdp, hcc]
  · intro he
    have hv : (validateMedication safeParse medication).isValid =
        ((validateMedication safeParse medication).errors.length == 0) :=
      isValid_eq (safeParse medication)
    rw [hv, he]
    rfl

theorem validateMedication_no_categories_warning_witness :
    ((fun _ : Unit => SafeParseResult.success ⟨none, none⟩) () =
        SafeParseResult.success ⟨none, none⟩ ∧
      ((MedicationData.complaintCategories ⟨none, none⟩ = none) ∨
        MedicationData.complaintCategories ⟨none, none⟩ = some [])) ∧
    ((validateMedication
        (fun _ : Unit => SafeParseResult.success ⟨none, none⟩)
        ()).warnings = [noCategoriesWarning] ∧
     ((validateMedication
        (fun _ : Unit => SafeParseResult.success ⟨none, none⟩)
        ()).errors = [] →
      (validateMedication
        (fun _ : Unit => SafeParseResult.success ⟨none, none⟩)
        ()).isValid = true)) :=
  ⟨⟨rfl, Or.inl rfl⟩,
    validateMedication_no_categories_warning _ () _ rfl (Or.inl rfl)⟩

/-- C6: a record that passes schema validation, has no dosing profiles
and has at least one complaint category yields `isValid = true` with
both lists empty. -/
theorem validateMedication_clean_record {α : Type}
    (safeParse : α → SafeParseResult) (medication : α)
    (data : MedicationData)
    (h : safeParse medication = .success data)
    (hdp : data.dosingProfiles = none ∨ data.dosingProfiles = some [])
    (hcc : ∃ c cs, data.complaintCategories = some (c :: cs)) :
    validateMedication safeParse medication =
      { isValid := true, errors := [], warnings := [] } := by
  obtain ⟨c, cs, hcc⟩ := hcc
  rcases hdp with hdp | hdp <;>
    simp [validateMedication, validateResult, h, hdp, hcc,
      dosingProfileErrorsFrom]

theorem validateMedication_clean_record_witness :
    ((fun _ : Unit => SafeParseResult.success ⟨none, some ["fever"]⟩) () =
        SafeParseResult.success ⟨none, some ["fever"]⟩ ∧
      (MedicationData.dosingProfiles ⟨none, some ["fever"]⟩ = none ∨
        MedicationData.dosingProfiles ⟨none, some ["fever"]⟩ = some []) ∧
      (∃ c cs, MedicationData.complaintCategories ⟨none, some ["fever"]⟩ =
        some (c :: cs))) ∧
    validateMedication
        (fun _ : Unit => SafeParseResult.success ⟨none, some ["fever"]⟩) () =
      { isValid := true, errors := [], warnings := [] } :=
  ⟨⟨rfl, Or.inl rfl, ⟨"fever", [], rfl⟩⟩,
    validateMedication_clean_record _ () _ rfl (Or.inl rfl)
      ⟨"fever", [], rfl⟩⟩

/-- C7: `validateMedication` is deterministic: two calls on the same
unmodified input produce structurally identical results. -/
theorem validateMedication_deterministic {α : Type}
    (safeParse : α → SafeParseResult) (m₁ m₂ : α) (h : m₁ = m₂) :
    validateMedication safeParse m₁ = validateMedication safeParse m₂ := by
  rw [h]

theorem validateMedication_deterministic_witness :
    (() = ()) ∧
    validateMedication
        (fun _ : Unit => SafeParseResult.success ⟨none, none⟩) () =
      validateMedication
        (fun _ : Unit => SafeParseResult.success ⟨none, none⟩) () :=
  ⟨rfl, validateMedication_deterministic _ () () rfl⟩

/-- C8: `validateMedication` is a pure function of the input record and
the fixed external schema: equal schema and equal record give equal
output, and the embedding never mutates its input. -/
theorem validateMedication_pure {α : Type}
    (safeParse₁ safeParse₂ : α → SafeParseResult) (m₁ m₂ : α)
    (hs : safeParse₁ = safeParse₂) (hm : m₁ = m₂) :
    validateMedication safeParse₁ m₁ = validateMedication safeParse₂ m₂ := by
  rw [hs, hm]

theorem validateMedication_pure_witness :
    ((fun _ : Unit => SafeParseResult.success ⟨none, none⟩) =
        (fun _ : Unit => SafeParseResult.success ⟨none, none⟩) ∧
      () = ()) ∧
    validateMedication
        (fun _ : Unit => SafeParseResult.success ⟨none, none⟩) () =
      validateMedication
        (fun _ : Unit => SafeParseResult.success ⟨none, none⟩) () :=
  ⟨⟨rfl, rfl⟩, validateMedication_pure _ _ () () rfl rfl⟩

/-- C9: when schema validation fails, the warnings list is empty: the
"No complaint categories assigned" check runs only in the
schema-success branch. -/
theorem validateMedication_failure_no_warnings {α : Type}
    (safeParse : α → SafeParseResult) (medication : α)
    (issues : List ZodIssue)
    (h : safeParse medication = .failure issues) :
    (validateMedication safeParse medication).warnings = [] := by
  simp [validateMedication, validateResult, h]

theorem validateMedication_failure_no_warnings_witness :
    (fun _ : Unit => SafeParseResult.failure
        [⟨[PathSeg.str "name"], "Required"⟩]) () =
      SafeParseResult.failure [⟨[PathSeg.str "name"], "Required"⟩] ∧
    (validateMedication
        (fun _ : Unit => SafeParseResult.failure
          [⟨[PathSeg.str "name"], "Required"⟩]) ()).warnings = [] :=
  ⟨rfl, validateMedication_failure_no_warnings _ () _ rfl⟩

/-- C10: for every input, the warnings list has at most one element, and
when non-empty its sole element is "No complaint categories assigned". -/
theorem validateMedication_warnings_invariant {α : Type}
    (safeParse : α → SafeParseResult) (medication : α) :
    (validateMedication safeParse medication).warnings.length ≤ 1 ∧
    ((validateMedication safeParse medication).warnings = [] ∨
      (validateMedication safeParse medication).warnings =
        [noCategoriesWarning]) := by
  cases h : safeParse medication with
  | failure issues => simp [validateMedication, validateResult, h]
  | success d =>
    cases hcc : d.complaintCategories with
    | none => simp [validateMedication, validateResult, h, hcc]
    | some cs =>
      cases cs with
      | nil => simp [validateMedication, validateResult, h, hcc]
      | cons c cs => simp [validateMedication, validateResult, h, hcc]

end QuickRef
